import Mathlib

/-!
Verification of the Zone14 science-worker HTTP service
(`src/science-worker/main.py`).

The program registers two GET routes on a FastAPI application object:
`/health`, handled by `health_check`, and `/`, handled by `read_root`.
Each handler is a single `return` of a literal string-to-string mapping,
which the framework serves as a JSON body with status 200 and
`Content-Type: application/json`.

The embedding below models an HTTP request (method, path, query
parameters, headers, body), the ambient world (environment variables and
process uptime, which the handlers never read), the route table built by
the two decorators, and the framework's dispatch step `handleRequest`,
which threads the module state (the route table) explicitly so that frame
and interference properties can be stated.  A small statement language
`PyStmt` with a fuel-based evaluator embeds the handler bodies themselves
for the termination claim.
-/

/-- An inbound HTTP request: method, path, query parameters, headers and
raw body.  The Python handlers declare no parameters, so FastAPI ignores
query, headers and body; they are carried here so input-independence can
be stated over them. -/
structure Request where
  method : String
  path : String
  query : List (String × String)
  headers : List (String × String)
  body : String

/-- An HTTP response as produced by FastAPI for a handler returning a
dict: status code, content type, and the JSON object payload as a
string-to-string association list. -/
structure Response where
  status : Nat
  contentType : String
  body : List (String × String)

/-- The ambient world outside the program: process environment variables
and process uptime.  Neither handler in `main.py` reads either. -/
structure World where
  env : List (String × String)
  uptime : Nat

/-- The payload returned by `health_check` in `main.py` (line 7):
the literal dict with keys `status` and `service`. -/
def health_check : List (String × String) :=
  [("status", "ok"), ("service", "science-worker")]

/-- The payload returned by `read_root` in `main.py` (line 11):
the literal dict with the single key `message`. -/
def read_root : List (String × String) :=
  [("message", "Zone14 Science Worker")]

/-- A registered route: HTTP method, path, and the handler function.
The Python handlers take no arguments, hence `Unit`. -/
structure Route where
  method : String
  path : String
  handler : Unit → List (String × String)

/-- The FastAPI application object `app` of `main.py`: the route table
built by the two `@app.get` decorators, in registration order. -/
def app : List Route :=
  [⟨"GET", "/health", fun _ => health_check⟩,
   ⟨"GET", "/", fun _ => read_root⟩]

/-- Route matching: the first registered route whose method and path
equal the request's. -/
def findRoute : List Route → String → String → Option Route
  | [], _, _ => none
  | r :: rs, m, p => if r.method = m ∧ r.path = p then some r else findRoute rs m p

/-- One dispatch step of the framework: match the request against the
route table `s`, run the handler, and wrap its dict in a 200 JSON
response; an unmatched request is delegated to the framework default
(`none`, outside this contract).  The module state `s` is threaded
explicitly; the world `w` is available but never consulted, as in the
source. -/
def handleRequest (_w : World) (s : List Route) (req : Request) :
    List Route × Option Response :=
  match findRoute s req.method req.path with
  | some r => (s, some ⟨200, "application/json", r.handler ()⟩)
  | none => (s, none)

/-- Sequential processing of a list of requests, threading the module
state from each dispatch into the next. -/
def runAll (w : World) : List Route → List Request → List Route × List (Option Response)
  | s, [] => (s, [])
  | s, r :: rs =>
    let p := handleRequest w s r
    let q := runAll w p.1 rs
    (q.1, p.2 :: q.2)

/-- `Interleaving xs ys zs` holds when `zs` is an order-preserving merge
of two clients' request streams `xs` and `ys`. -/
inductive Interleaving : List Request → List Request → List Request → Prop
  | nil : Interleaving [] [] []
  | left (x : Request) {xs ys zs : List Request} :
      Interleaving xs ys zs → Interleaving (x :: xs) ys (x :: zs)
  | right (y : Request) {xs ys zs : List Request} :
      Interleaving xs ys zs → Interleaving xs (y :: ys) (y :: zs)

/-- A fragment of Python statement syntax rich enough to host the handler
bodies: return of a literal dict, sequencing, and an unconditional loop
(so that divergence is expressible in the language, and termination of
these particular bodies is not forced by the syntax). -/
inductive PyStmt where
  | ret : List (String × String) → PyStmt
  | seq : PyStmt → PyStmt → PyStmt
  | loop : PyStmt → PyStmt

/-- Fuel-based evaluation of a statement to a returned payload; `none`
means the fuel ran out before a `return` was reached. -/
def execStmt : Nat → PyStmt → Option (List (String × String))
  | 0, _ => none
  | Nat.succ _, PyStmt.ret v => some v
  | Nat.succ n, PyStmt.seq a b =>
    match execStmt n a with
    | some v => some v
    | none => execStmt n b
  | Nat.succ n, PyStmt.loop b =>
    match execStmt n b with
    | some v => some v
    | none => execStmt n (PyStmt.loop b)

/-- The body of `health_check` (lines 6-7 of `main.py`): a single return
of a literal dict. -/
def healthBody : PyStmt := PyStmt.ret health_check

/-- The body of `read_root` (lines 10-11 of `main.py`): a single return
of a literal dict. -/
def rootBody : PyStmt := PyStmt.ret read_root

/-- Sample world used by witnesses: empty environment, zero uptime. -/
def wSample : World := ⟨[], 0⟩

/-- Sample plain `GET /health` request used by witnesses. -/
def healthReq : Request := ⟨"GET", "/health", [], [], ""⟩

/-- Sample plain `GET /` request used by witnesses. -/
def rootReq : Request := ⟨"GET", "/", [], [], ""⟩

/-- The fixed response of the health endpoint. -/
def healthResp : Response := ⟨200, "application/json", health_check⟩

/-- The fixed response of the root endpoint. -/
def rootResp : Response := ⟨200, "application/json", read_root⟩

lemma findRoute_app_health : findRoute app "GET" "/health" =
    some ⟨"GET", "/health", fun _ => health_check⟩ := by
  simp [findRoute, app]

lemma findRoute_app_root : findRoute app "GET" "/" =
    some ⟨"GET", "/", fun _ => read_root⟩ := by
  simp [findRoute, app]

lemma handleRequest_fst (w : World) (s : List Route) (req : Request) :
    (handleRequest w s req).1 = s := by
  unfold handleRequest
  cases findRoute s req.method req.path <;> rfl

lemma handleRequest_health (w : World) (req : Request)
    (hm : req.method = "GET") (hp : req.path = "/health") :
    handleRequest w app req = (app, some healthResp) := by
  unfold handleRequest
  rw [hm, hp, findRoute_app_health]
  rfl

lemma handleRequest_root (w : World) (req : Request)
    (hm : req.method = "GET") (hp : req.path = "/") :
    handleRequest w app req = (app, some rootResp) := by
  unfold handleRequest
  rw [hm, hp, findRoute_app_root]
  rfl

lemma runAll_fst (w : World) (s : List Route) (reqs : List Request) :
    (runAll w s reqs).1 = s := by
  induction reqs generalizing s with
  | nil => rfl
  | cons r rs ih => simp [runAll, handleRequest_fst, ih]

lemma runAll_snd (w : World) (s : List Route) (reqs : List Request) :
    (runAll w s reqs).2 = reqs.map (fun r => (handleRequest w s r).2) := by
  induction reqs generalizing s with
  | nil => rfl
  | cons r rs ih => simp [runAll, handleRequest_fst, ih]

/-- C1: every `GET /health` request, whatever its query parameters,
headers or body, yields status 200 with JSON body exactly the mapping
with the two keys `status` and `service` bound to `"ok"` and
`"science-worker"`, and leaves the route table unchanged. -/
theorem health_endpoint_response (w : World) (req : Request)
    (hm : req.method = "GET") (hp : req.path = "/health") :
    handleRequest w app req =
      (app, some ⟨200, "application/json",
        [("status", "ok"), ("service", "science-worker")]⟩) :=
  handleRequest_health w req hm hp

/-- C1 witness: the theorem applied to a concrete plain `GET /health`
request in a concrete world. -/
theorem health_endpoint_response_witness :
    handleRequest ⟨[], 0⟩ app ⟨"GET", "/health", [], [], ""⟩ =
      (app, some ⟨200, "application/json",
        [("status", "ok"), ("service", "science-worker")]⟩) :=
  health_endpoint_response ⟨[], 0⟩ ⟨"GET", "/health", [], [], ""⟩ rfl rfl

/-- C2: every `GET /` request, whatever its query parameters, headers or
body, yields status 200 with JSON body exactly the mapping with the one
key `message` bound to `"Zone14 Science Worker"`, and leaves the route
table unchanged. -/
theorem root_endpoint_response (w : World) (req : Request)
    (hm : req.method = "GET") (hp : req.path = "/") :
    handleRequest w app req =
      (app, some ⟨200, "application/json",
        [("message", "Zone14 Science Worker")]⟩) :=
  handleRequest_root w req hm hp

/-- C2 witness: the theorem applied to a concrete plain `GET /` request
in a concrete world. -/
theorem root_endpoint_response_witness :
    handleRequest ⟨[], 0⟩ app ⟨"GET", "/", [], [], ""⟩ =
      (app, some ⟨200, "application/json",
        [("message", "Zone14 Science Worker")]⟩) :=
  root_endpoint_response ⟨[], 0⟩ ⟨"GET", "/", [], [], ""⟩ rfl rfl

/-- C3: the responses are input-independent constants — two invocations
of the same endpoint, with arbitrary and possibly different query
parameters, headers, bodies, environments and uptimes, produce equal
responses. -/
theorem handlers_input_independent (w₁ w₂ : World) (req₁ req₂ : Request)
    (hm₁ : req₁.method = "GET") (hm₂ : req₂.method = "GET")
    (hp : req₁.path = req₂.path)
    (hend : req₁.path = "/health" ∨ req₁.path = "/") :
    (handleRequest w₁ app req₁).2 = (handleRequest w₂ app req₂).2 := by
  rcases hend with h | h
  · rw [handleRequest_health w₁ req₁ hm₁ h, handleRequest_health w₂ req₂ hm₂ (hp ▸ h)]
  · rw [handleRequest_root w₁ req₁ hm₁ h, handleRequest_root w₂ req₂ hm₂ (hp ▸ h)]

/-- C3 witness: two health requests differing in query, headers, body,
environment and uptime produce the same response. -/
theorem handlers_input_independent_witness :
    (handleRequest ⟨[], 0⟩ app ⟨"GET", "/health", [], [], ""⟩).2 =
      (handleRequest ⟨[("HOME", "/root")], 99⟩ app
        ⟨"GET", "/health", [("foo", "bar")], [("X-A", "b")], "payload"⟩).2 :=
  handlers_input_independent ⟨[], 0⟩ ⟨[("HOME", "/root")], 99⟩
    ⟨"GET", "/health", [], [], ""⟩
    ⟨"GET", "/health", [("foo", "bar")], [("X-A", "b")], "payload"⟩
    rfl rfl rfl (Or.inl rfl)

/-- C4: repeating any request `n` times yields `n` responses that are
all identical: the response list is the `n`-fold replication of the
single-shot response. -/
theorem repeat_requests_identical (w : World) (req : Request) (n : Nat) :
    (runAll w app (List.replicate n req)).2 =
      List.replicate n (handleRequest w app req).2 := by
  rw [runAll_snd, List.map_replicate]

/-- C5: the defined operations cannot fail — every `GET` request to
`/health` or `/` produces a response, and its status is 200, never an
error. -/
theorem defined_endpoints_never_fail (w : World) (req : Request)
    (hm : req.method = "GET") (hp : req.path = "/health" ∨ req.path = "/") :
    ∃ resp : Response, (handleRequest w app req).2 = some resp ∧ resp.status = 200 := by
  rcases hp with h | h
  · exact ⟨healthResp, by rw [handleRequest_health w req hm h], rfl⟩
  · exact ⟨rootResp, by rw [handleRequest_root w req hm h], rfl⟩

/-- C5 witness: the theorem applied to a concrete `GET /` request. -/
theorem defined_endpoints_never_fail_witness :
    ∃ resp : Response,
      (handleRequest ⟨[], 0⟩ app ⟨"GET", "/", [], [], ""⟩).2 = some resp ∧
        resp.status = 200 :=
  defined_endpoints_never_fail ⟨[], 0⟩ ⟨"GET", "/", [], [], ""⟩ rfl (Or.inr rfl)

/-- C6: handling a request is side-effect-free — the module state (the
route table) is unchanged by any single dispatch and by any sequence of
dispatches. -/
theorem handlers_preserve_state (w : World) (s : List Route) (req : Request)
    (reqs : List Request) :
    (handleRequest w s req).1 = s ∧ (runAll w s reqs).1 = s :=
  ⟨handleRequest_fst w s req, runAll_fst w s reqs⟩

/-- C7: every response the application produces is served with
`Content-Type: application/json`; its payload is by construction a
string-to-string mapping. -/
theorem responses_are_json (w : World) (req : Request) (resp : Response)
    (h : (handleRequest w app req).2 = some resp) :
    resp.contentType = "application/json" := by
  unfold handleRequest at h
  cases hf : findRoute app req.method req.path with
  | none => rw [hf] at h; exact absurd h (by simp)
  | some r =>
    rw [hf] at h
    simp only [Option.some.injEq] at h
    rw [← h]

/-- C7 witness: the concrete health response exists and carries the JSON
content type. -/
theorem responses_are_json_witness :
    (handleRequest ⟨[], 0⟩ app ⟨"GET", "/health", [], [], ""⟩).2 = some healthResp ∧
      healthResp.contentType = "application/json" :=
  ⟨by rw [handleRequest_health ⟨[], 0⟩ ⟨"GET", "/health", [], [], ""⟩ rfl rfl],
   responses_are_json ⟨[], 0⟩ ⟨"GET", "/health", [], [], ""⟩ healthResp
     (by rw [handleRequest_health ⟨[], 0⟩ ⟨"GET", "/health", [], [], ""⟩ rfl rfl])⟩

/-- C8: concurrent clients do not interfere — in any interleaving of two
clients' request streams, every response equals exactly the response the
application gives that request alone from its initial state. -/
theorem concurrent_interleaving_no_interference (w : World)
    (xs ys zs : List Request) (_h : Interleaving xs ys zs) :
    (runAll w app zs).2 = zs.map (fun r => (handleRequest w app r).2) :=
  runAll_snd w app zs

/-- C8 witness: a concrete interleaving of a health-probing client and a
root-probing client, each response matching its endpoint's contract. -/
theorem concurrent_interleaving_no_interference_witness :
    (runAll wSample app [healthReq, rootReq]).2 =
      [healthReq, rootReq].map (fun r => (handleRequest wSample app r).2) :=
  concurrent_interleaving_no_interference wSample [healthReq] [rootReq]
    [healthReq, rootReq]
    (Interleaving.left healthReq (Interleaving.right rootReq Interleaving.nil))

/-- C9: both handler bodies terminate on every invocation — each is a
single return of a literal mapping, so evaluation succeeds with any
positive fuel, even though the statement language admits divergence. -/
theorem handler_bodies_terminate (n : Nat) :
    execStmt (n + 1) healthBody = some health_check ∧
      execStmt (n + 1) rootBody = some read_root :=
  ⟨rfl, rfl⟩

/-- C10: no invocation can observe or influence another — after any
sequence of prior requests, the module state is still the original route
table and a fresh request is answered exactly as it would be with no
history. -/
theorem no_cross_invocation_interference (w : World) (prior : List Request)
    (req : Request) :
    handleRequest w (runAll w app prior).1 req = handleRequest w app req ∧
      (runAll w app prior).1 = app := by
  rw [runAll_fst]
  exact ⟨rfl, rfl⟩
